import Mathlib

/-!
# Verification of `collect_stats.py` (moltbot-dashboard)

Shallow embedding of the stats-collection script: the pure computation of
`fetch_subreddit_stats` and `collect_all_stats` is modelled as Lean functions
over explicit inputs standing for the HTTP responses, the previously persisted
snapshot and the persisted history.  Machine-level JSON numbers are modelled as
`Int` (counts) and the single float division (`avg_score`) as exact rational
division followed by Python's round-half-to-even.
-/

/-- One post record from the hot-listing response: `data.created_utc`,
`data.num_comments`, `data.score` (each read with `.get(key, 0)`). -/
structure Post where
  created_utc : Int
  num_comments : Int
  score : Int
  deriving DecidableEq

/-- The four running accumulators of the 24h loop in `fetch_subreddit_stats`
(`posts_24h`, `comments_24h`, `upvotes_24h`, `top_score`), all initialised
to 0. -/
structure Stats24 where
  posts_24h : Nat
  comments_24h : Int
  upvotes_24h : Int
  top_score : Int
  deriving DecidableEq

/-- One iteration of the `for post in posts_data` loop: a post counts iff
`created > day_ago`; a counted post bumps the post count and adds its
comments and score, and the running maximum is `max(top_score, score)`. -/
def stats24hStep (day_ago : Int) (acc : Stats24) (p : Post) : Stats24 :=
  if p.created_utc > day_ago then
    { posts_24h := acc.posts_24h + 1
      comments_24h := acc.comments_24h + p.num_comments
      upvotes_24h := acc.upvotes_24h + p.score
      top_score := max acc.top_score p.score }
  else acc

/-- The whole 24h loop: fold `stats24hStep` over the listing with
`day_ago = now - 86400` and all accumulators 0. -/
def stats24h (posts : List Post) (now : Int) : Stats24 :=
  posts.foldl (stats24hStep (now - 86400)) ⟨0, 0, 0, 0⟩

/-- The metadata (`about.json`) payload: `data.subscribers` (absent key gives
default 0) and `data.accounts_active`, where the outer `Option` is key
absence and the inner one a JSON `null` (Python `None`); the spec's metadata
interface provides the subscriber count as a number when present. -/
structure AboutData where
  subscribers : Option Int
  accounts_active : Option (Option Int)
  deriving DecidableEq

/-- Python `about.get('accounts_active', 0) or 0`: an absent key defaults to
0, a `None` (JSON null) or a 0 value is falsy and replaced by 0, and any other
integer passes through — on integers `v or 0` equals `v`. -/
def pyActive : Option (Option Int) → Int
  | none => 0
  | some none => 0
  | some (some n) => n

/-- Outcome of the hot-posts request: a 200 response with a parsed listing,
a non-200 status (the code then uses an empty listing), or a raised
exception (timeout / malformed body), which the outer `except` turns into
a `None` result for the whole fetch. -/
inductive HotResult where
  | ok (posts : List Post)
  | httpError
  | raise
  deriving DecidableEq

/-- Python 3 `round` to an integer: round half to even (banker's rounding),
on the exact rational value. -/
def pyRound (q : ℚ) : ℤ :=
  let f := ⌊q⌋
  if q - f < 1/2 then f
  else if q - f > 1/2 then f + 1
  else if f % 2 = 0 then f else f + 1

/-- The populated per-subreddit result dict of `fetch_subreddit_stats`. -/
structure SubredditStats where
  name : String
  key : String
  subscribers : Int
  active : Int
  posts_24h : Nat
  comments : Int
  avg_score : Int
  total_upvotes : Int
  top_score : Int
  deriving DecidableEq

/-- `fetch_subreddit_stats`: `about = none` stands for a non-200 status or a
raised exception on the metadata call (the function returns `None`); a raised
exception on the hot-posts call also reaches the outer `except` and yields
`None`; a non-200 hot-posts status yields an empty listing.  Otherwise the
populated dict is returned, with
`avg_score = round(upvotes_24h / max(posts_24h, 1))`. -/
def fetch_subreddit_stats (subreddit : String) (about : Option AboutData)
    (hot : HotResult) (now : Int) : Option SubredditStats :=
  match about with
  | none => none
  | some ab =>
    match hot with
    | .raise => none
    | _ =>
      let posts_data := match hot with | .ok ps => ps | _ => []
      let s := stats24h posts_data now
      some
        { name := "r/" ++ subreddit
          key := subreddit
          subscribers := ab.subscribers.getD 0
          active := pyActive ab.accounts_active
          posts_24h := s.posts_24h
          comments := s.comments_24h
          avg_score := pyRound ((s.upvotes_24h : ℚ) / ((max s.posts_24h 1 : Nat) : ℚ))
          total_upvotes := s.upvotes_24h
          top_score := s.top_score }

/-- The result dict of `fetch_github_stats` on success. -/
structure GithubStats where
  stars : Int
  forks : Int
  open_issues : Int
  deriving DecidableEq

/-- The fields of the previously persisted `data.json` that
`collect_all_stats` reads, each `none` when the surrounding dict or the key
is missing (`prev.get('reddit', {}).get('total_subscribers', ...)` etc.). -/
structure PrevData where
  reddit_total_subscribers : Option Int
  github_stars : Option Int
  github_forks : Option Int
  deriving DecidableEq

/-- One history entry as built in `collect_all_stats`: fixed fields plus the
flattened, key-prefixed per-subreddit counters in insertion order. -/
structure HistoryEntry where
  timestamp : String
  time_local : String
  reddit_total : Int
  reddit_active : Int
  reddit_posts : Nat
  reddit_comments : Int
  reddit_upvotes : Int
  sub_fields : List (String × Int)
  github_stars : Int
  github_forks : Int
  github_issues : Int
  deriving DecidableEq

/-- The `for stats in subreddit_stats` loop adding the five key-prefixed
counters per subreddit to the history entry. -/
def subFields (stats : List SubredditStats) : List (String × Int) :=
  stats.foldl
    (fun acc s =>
      acc ++ [(s.key ++ "_subs", s.subscribers), (s.key ++ "_active", s.active),
        (s.key ++ "_posts", (s.posts_24h : Int)), (s.key ++ "_upvotes", s.total_upvotes),
        (s.key ++ "_comments", s.comments)]) []

/-- The `reddit` sub-object of the new `data.json`. -/
structure RedditAgg where
  total_subscribers : Int
  delta_subscribers : Int
  total_active : Int
  total_posts_24h : Nat
  total_comments : Int
  total_upvotes : Int
  subreddits : List SubredditStats
  deriving DecidableEq

/-- The `github` sub-object of the new `data.json`. -/
structure GithubAgg where
  stars : Int
  stars_delta : Int
  forks : Int
  forks_delta : Int
  open_issues : Int
  deriving DecidableEq

/-- The new `data.json` document built by `collect_all_stats`. -/
structure DataSnapshot where
  timestamp : String
  timestamp_local : String
  data_points : Nat
  reddit : RedditAgg
  github : GithubAgg
  deriving DecidableEq

/-- Accumulators of the `for sub in SUBREDDITS` loop: the collected list and
the five running totals, all starting empty / 0. -/
structure RedditAcc where
  stats : List SubredditStats
  total_subs : Int
  total_active : Int
  total_posts : Nat
  total_comments : Int
  total_upvotes : Int
  deriving DecidableEq

/-- One iteration of the subreddit loop: a `None` fetch result is skipped
(`if stats:`), an available one is appended and its counters added. -/
def redditStep (acc : RedditAcc) (r : Option SubredditStats) : RedditAcc :=
  match r with
  | none => acc
  | some s =>
    { stats := acc.stats ++ [s]
      total_subs := acc.total_subs + s.subscribers
      total_active := acc.total_active + s.active
      total_posts := acc.total_posts + s.posts_24h
      total_comments := acc.total_comments + s.comments
      total_upvotes := acc.total_upvotes + s.total_upvotes }

/-- `history.append(entry)` followed by `history = history[-1000:]` when the
length exceeds 1000: the persisted history sequence. -/
def appendTruncHistory (history : List HistoryEntry) (entry : HistoryEntry) :
    List HistoryEntry :=
  let h := history ++ [entry]
  if h.length > 1000 then h.drop (h.length - 1000) else h

/-- `collect_all_stats`, as a function of the per-subreddit fetch outcomes
(one per configured subreddit, in order), the GitHub fetch outcome, the
previously persisted snapshot fields, the persisted history at the start of
the run, and the formatted timestamps.  Returns the new `data.json` document
and the newly persisted history sequence. -/
def collect_all_stats (results : List (Option SubredditStats))
    (githubFetch : Option GithubStats) (prev : PrevData)
    (history : List HistoryEntry)
    (tsUtc tsLocal tsIso tsShort : String) :
    DataSnapshot × List HistoryEntry :=
  let acc := results.foldl redditStep ⟨[], 0, 0, 0, 0, 0⟩
  let github := githubFetch.getD ⟨0, 0, 0⟩
  let data : DataSnapshot :=
    { timestamp := tsUtc
      timestamp_local := tsLocal
      data_points := history.length + 1
      reddit :=
        { total_subscribers := acc.total_subs
          delta_subscribers := acc.total_subs - (prev.reddit_total_subscribers.getD acc.total_subs)
          total_active := acc.total_active
          total_posts_24h := acc.total_posts
          total_comments := acc.total_comments
          total_upvotes := acc.total_upvotes
          subreddits := acc.stats }
      github :=
        { stars := github.stars
          stars_delta := github.stars - (prev.github_stars.getD github.stars)
          forks := github.forks
          forks_delta := github.forks - (prev.github_forks.getD github.forks)
          open_issues := github.open_issues } }
  let entry : HistoryEntry :=
    { timestamp := tsIso
      time_local := tsShort
      reddit_total := acc.total_subs
      reddit_active := acc.total_active
      reddit_posts := acc.total_posts
      reddit_comments := acc.total_comments
      reddit_upvotes := acc.total_upvotes
      sub_fields := subFields acc.stats
      github_stars := github.stars
      github_forks := github.forks
      github_issues := github.open_issues }
  (data, appendTruncHistory history entry)

/-- Spec-side comparison definition, from the claims' words: the scores of
the qualifying posts, those created within the trailing 24 hours (strictly
after `now - 86400`). -/
def qualifyingScores (posts : List Post) (now : Int) : List Int :=
  (posts.filter (fun p => p.created_utc > now - 86400)).map (fun p => p.score)

/-- A concrete history entry, for evaluating the history bound at the
1000-entry cap. -/
def e0 : HistoryEntry :=
  { timestamp := "2026-01-01T00:00:00", time_local := "01/01 00:00", reddit_total := 0
    reddit_active := 0, reddit_posts := 0, reddit_comments := 0, reddit_upvotes := 0
    sub_fields := [], github_stars := 0, github_forks := 0, github_issues := 0 }

/-- A concrete available community result (2 posts in 24h, scores 10 and 20). -/
def sA : SubredditStats :=
  { name := "r/a", key := "a", subscribers := 600, active := 3, posts_24h := 2
    comments := 4, avg_score := 15, total_upvotes := 30, top_score := 20 }

/-- The all-zero community result produced when the metadata response has no
subscriber count and a null active count and the hot-posts call fails. -/
def sR : SubredditStats :=
  { name := "r/a", key := "a", subscribers := 0, active := 0, posts_24h := 0
    comments := 0, avg_score := 0, total_upvotes := 0, top_score := 0 }

/-! ## Helper lemmas -/

/-- Closed form of the 24h loop: folding `stats24hStep` computes, over the
posts strictly newer than `day_ago`, their number, the sum of their comment
counts, the sum of their scores, and the running maximum of their scores. -/
theorem stats24h_foldl_eq (d : Int) (posts : List Post) (acc : Stats24) :
    posts.foldl (stats24hStep d) acc =
      { posts_24h := acc.posts_24h + (posts.filter fun p => p.created_utc > d).length
        comments_24h := acc.comments_24h +
          (((posts.filter fun p => p.created_utc > d).map fun p => p.num_comments)).sum
        upvotes_24h := acc.upvotes_24h +
          (((posts.filter fun p => p.created_utc > d).map fun p => p.score)).sum
        top_score := ((posts.filter fun p => p.created_utc > d).map fun p => p.score).foldl
          max acc.top_score } := by
  induction posts generalizing acc with
  | nil => simp
  | cons p ps ih =>
    by_cases h : p.created_utc > d
    · rw [List.foldl_cons, ih]
      simp [stats24hStep, h, Stats24.mk.injEq]
      and_intros <;> ring
    · rw [List.foldl_cons, ih]
      simp [stats24hStep, h]

/-- Closed form of the subreddit loop: the collected list is the sequence of
available results, and each total is the corresponding sum over them. -/
theorem reddit_foldl_eq (results : List (Option SubredditStats)) (acc : RedditAcc) :
    results.foldl redditStep acc =
      { stats := acc.stats ++ results.filterMap id
        total_subs := acc.total_subs + ((results.filterMap id).map fun s => s.subscribers).sum
        total_active := acc.total_active + ((results.filterMap id).map fun s => s.active).sum
        total_posts := acc.total_posts + ((results.filterMap id).map fun s => s.posts_24h).sum
        total_comments := acc.total_comments +
          ((results.filterMap id).map fun s => s.comments).sum
        total_upvotes := acc.total_upvotes +
          ((results.filterMap id).map fun s => s.total_upvotes).sum } := by
  induction results generalizing acc with
  | nil => simp
  | cons r rs ih =>
    cases r with
    | none =>
      rw [List.foldl_cons, ih]
      simp [redditStep, List.filterMap_cons]
    | some s =>
      rw [List.foldl_cons, ih]
      simp [redditStep, List.filterMap_cons, RedditAcc.mk.injEq, List.append_assoc]
      and_intros <;> ring

/-- The persisted history after the append/truncate step has exactly
`min (n + 1) 1000` entries, `n` the starting length. -/
theorem appendTruncHistory_length (history : List HistoryEntry) (entry : HistoryEntry) :
    (appendTruncHistory history entry).length = min (history.length + 1) 1000 := by
  simp only [appendTruncHistory]
  split
  all_goals simp_all
  all_goals omega

/-- The run counter of the new snapshot is the starting history length
plus one. -/
theorem collect_data_points (results : List (Option SubredditStats))
    (githubFetch : Option GithubStats) (prev : PrevData) (history : List HistoryEntry)
    (tsUtc tsLocal tsIso tsShort : String) :
    (collect_all_stats results githubFetch prev history tsUtc tsLocal tsIso tsShort).1.data_points
      = history.length + 1 := rfl

/-- Length of the history persisted by a run. -/
theorem collect_history_length (results : List (Option SubredditStats))
    (githubFetch : Option GithubStats) (prev : PrevData) (history : List HistoryEntry)
    (tsUtc tsLocal tsIso tsShort : String) :
    (collect_all_stats results githubFetch prev history tsUtc tsLocal tsIso tsShort).2.length
      = min (history.length + 1) 1000 :=
  appendTruncHistory_length history _

/-- `pyRound` returns a nearest integer: its distance to the argument is at
most one half. -/
theorem pyRound_nearest (q : ℚ) : |(pyRound q : ℚ) - q| ≤ 1/2 := by
  have h0 : (⌊q⌋ : ℚ) ≤ q := Int.floor_le q
  have h1 : q < ⌊q⌋ + 1 := Int.lt_floor_add_one q
  simp only [pyRound]
  split_ifs with ha hb hc <;> rw [abs_le] <;> constructor <;> push_cast <;> linarith

/-- `pyRound` of an integer is that integer. -/
theorem pyRound_intCast (n : ℤ) : pyRound (n : ℚ) = n := by
  simp [pyRound]

/-- The seed of a `max` fold is a lower bound of the result. -/
theorem le_foldlMax (l : List Int) (a : Int) : a ≤ l.foldl max a := by
  induction l generalizing a with
  | nil => simp
  | cons x xs ih => exact le_trans (le_max_left a x) (ih (max a x))

/-- Every list element is a lower bound of a `max` fold over the list. -/
theorem le_foldlMax_of_mem (l : List Int) (a : Int) :
    ∀ x ∈ l, x ≤ l.foldl max a := by
  induction l generalizing a with
  | nil => simp
  | cons y ys ih =>
    intro x hx
    rcases List.mem_cons.mp hx with rfl | hx
    · exact le_trans (le_max_right a x) (le_foldlMax ys (max a x))
    · exact ih (max a y) x hx

/-- A `max` fold is bounded by any common upper bound of the seed and the
list elements. -/
theorem foldlMax_le (l : List Int) (a m : Int) (ha : a ≤ m) (h : ∀ x ∈ l, x ≤ m) :
    l.foldl max a ≤ m := by
  induction l generalizing a with
  | nil => simpa
  | cons y ys ih =>
    exact ih (max a y) (max_le ha (h y (List.mem_cons_self y ys)))
      fun x hx => h x (List.mem_cons_of_mem y hx)

/-- `List.max?` returns the element that bounds all others. -/
theorem max?_eq_some_of_bounds (l : List Int) (m : Int) (hm : m ∈ l)
    (hle : ∀ x ∈ l, x ≤ m) : l.max? = some m := by
  cases l with
  | nil => simp at hm
  | cons y ys =>
    have hmem : ∀ x ∈ y :: ys, x ≤ ys.foldl max y := by
      intro x hx
      rcases List.mem_cons.mp hx with rfl | hx
      · exact le_foldlMax ys x
      · exact le_foldlMax_of_mem ys y x hx
    have h1 : ys.foldl max y ≤ m := foldlMax_le ys y m (hle y (List.mem_cons_self y ys))
      fun x hx => hle x (List.mem_cons_of_mem y hx)
    have h2 : m ≤ ys.foldl max y := hmem m hm
    simp [List.max?]
    omega

/-! ## Claims -/

/-- C5: a post from the hot listing is counted toward the 24h metrics iff its
creation timestamp is strictly greater than `now − 86400`: the counted posts
are exactly the filtered ones, a post created exactly at `now − 86400` is
excluded, and a post created at `now − 86399` is included. -/
theorem C5_window_boundary (posts : List Post) (now c s : Int) :
    (stats24h posts now).posts_24h
        = (posts.filter fun p => p.created_utc > now - 86400).length
    ∧ (stats24h posts now).upvotes_24h
        = ((posts.filter fun p => p.created_utc > now - 86400).map fun p => p.score).sum
    ∧ (stats24h posts now).comments_24h
        = ((posts.filter fun p => p.created_utc > now - 86400).map fun p => p.num_comments).sum
    ∧ (stats24h [⟨now - 86400, c, s⟩] now).posts_24h = 0
    ∧ (stats24h [⟨now - 86399, c, s⟩] now).posts_24h = 1 := by
  refine ⟨?_, ?_, ?_, ?_, ?_⟩
  · rw [stats24h, stats24h_foldl_eq]; simp
  · rw [stats24h, stats24h_foldl_eq]; simp
  · rw [stats24h, stats24h_foldl_eq]; simp
  · simp [stats24h, stats24hStep]
  · have h : (now : Int) - 86399 > now - 86400 := by omega
    simp [stats24h, stats24hStep, h]

/-- C7: every aggregate total of the new snapshot is the sum of the
corresponding field over exactly the communities whose fetch succeeded, and
the snapshot's subreddit list consists of exactly those communities — a
failed fetch is absent and contributes nothing. -/
theorem C7_totals_sum (results : List (Option SubredditStats))
    (githubFetch : Option GithubStats) (prev : PrevData) (history : List HistoryEntry)
    (tsUtc tsLocal tsIso tsShort : String) :
    ((collect_all_stats results githubFetch prev history tsUtc tsLocal tsIso
        tsShort).1.reddit.subreddits = results.filterMap id)
    ∧ (collect_all_stats results githubFetch prev history tsUtc tsLocal tsIso
        tsShort).1.reddit.total_subscribers
        = ((results.filterMap id).map fun s => s.subscribers).sum
    ∧ (collect_all_stats results githubFetch prev history tsUtc tsLocal tsIso
        tsShort).1.reddit.total_active
        = ((results.filterMap id).map fun s => s.active).sum
    ∧ (collect_all_stats results githubFetch prev history tsUtc tsLocal tsIso
        tsShort).1.reddit.total_posts_24h
        = ((results.filterMap id).map fun s => s.posts_24h).sum
    ∧ (collect_all_stats results githubFetch prev history tsUtc tsLocal tsIso
        tsShort).1.reddit.total_comments
        = ((results.filterMap id).map fun s => s.comments).sum
    ∧ (collect_all_stats results githubFetch prev history tsUtc tsLocal tsIso
        tsShort).1.reddit.total_upvotes
        = ((results.filterMap id).map fun s => s.total_upvotes).sum := by
  simp [collect_all_stats, reddit_foldl_eq]

/-- C8: the persisted history never exceeds 1000 entries after an append,
and appending to a full 1000-entry history drops exactly the oldest entry,
keeping the rest in order with the new entry last. -/
theorem C8_history_bound (history : List HistoryEntry) (entry : HistoryEntry) :
    (appendTruncHistory history entry).length ≤ 1000
    ∧ (history.length = 1000 →
        appendTruncHistory history entry = history.drop 1 ++ [entry]) := by
  constructor
  · rw [appendTruncHistory_length]; omega
  · intro h
    have h1 : 1 ≤ history.length := by omega
    simp [appendTruncHistory, h, List.drop_append_of_le_length h1]

/-- Witness for C8 at a concrete full history. -/
theorem C8_history_bound_witness :
    (appendTruncHistory (List.replicate 1000 e0) e0).length ≤ 1000
    ∧ appendTruncHistory (List.replicate 1000 e0) e0
        = (List.replicate 1000 e0).drop 1 ++ [e0] :=
  ⟨(C8_history_bound (List.replicate 1000 e0) e0).1,
   (C8_history_bound (List.replicate 1000 e0) e0).2 (by rw [List.length_replicate])⟩

/-- C9: when the metadata call succeeds but the hot-posts call has a
non-success status, the fetch still returns a populated result whose 24h
counters (`posts_24h`, `comments`, `total_upvotes`, `top_score`) are all 0,
with the metadata fields reported as usual. -/
theorem C9_posts_http_error (subreddit : String) (ab : AboutData) (now : Int) :
    fetch_subreddit_stats subreddit (some ab) HotResult.httpError now
      = some
          { name := "r/" ++ subreddit, key := subreddit
            subscribers := ab.subscribers.getD 0
            active := pyActive ab.accounts_active
            posts_24h := 0, comments := 0, avg_score := 0
            total_upvotes := 0, top_score := 0 } := by
  simp [fetch_subreddit_stats, stats24h]
  norm_num [pyRound]

/-- C6: `delta_subscribers` is current minus previous `total_subscribers`
when the previous snapshot carries that field, and 0 when it does not. -/
theorem C6_delta_subscribers (results : List (Option SubredditStats))
    (githubFetch : Option GithubStats) (prev : PrevData) (history : List HistoryEntry)
    (tsUtc tsLocal tsIso tsShort : String) :
    (∀ p, prev.reddit_total_subscribers = some p →
      (collect_all_stats results githubFetch prev history tsUtc tsLocal tsIso
          tsShort).1.reddit.delta_subscribers
        = (collect_all_stats results githubFetch prev history tsUtc tsLocal tsIso
            tsShort).1.reddit.total_subscribers - p)
    ∧ (prev.reddit_total_subscribers = none →
      (collect_all_stats results githubFetch prev history tsUtc tsLocal tsIso
          tsShort).1.reddit.delta_subscribers = 0) := by
  constructor
  · intro p hp
    simp [collect_all_stats, hp]
  · intro hp
    simp [collect_all_stats, hp]

/-- Witness for C6: one run with a recorded previous total of 100, one run
with no previous snapshot. -/
theorem C6_delta_subscribers_witness :
    (collect_all_stats [some sA] none ⟨some 100, none, none⟩ [] "" "" "" ""
        ).1.reddit.delta_subscribers
      = (collect_all_stats [some sA] none ⟨some 100, none, none⟩ [] "" "" "" ""
          ).1.reddit.total_subscribers - 100
    ∧ (collect_all_stats [] none ⟨none, none, none⟩ [] "" "" "" ""
        ).1.reddit.delta_subscribers = 0 :=
  ⟨(C6_delta_subscribers [some sA] none ⟨some 100, none, none⟩ [] "" "" "" "").1 100 rfl,
   (C6_delta_subscribers [] none ⟨none, none, none⟩ [] "" "" "" "").2 rfl⟩

/-- C10: in a populated community result, an absent or null
`accounts_active` yields `active = 0` and an absent `subscribers` yields
`subscribers = 0` — the fields are numeric, never null. -/
theorem C10_fields_numeric (subreddit : String) (ab : AboutData) (hot : HotResult)
    (now : Int) (s : SubredditStats)
    (h : fetch_subreddit_stats subreddit (some ab) hot now = some s) :
    ((ab.accounts_active = none ∨ ab.accounts_active = some none) → s.active = 0)
    ∧ (ab.subscribers = none → s.subscribers = 0) := by
  cases hot with
  | raise => simp [fetch_subreddit_stats] at h
  | ok ps =>
    simp only [fetch_subreddit_stats, Option.some.injEq] at h
    subst h
    refine ⟨?_, ?_⟩
    · rintro (h1 | h1) <;> simp [pyActive, h1]
    · intro h1; simp [h1]
  | httpError =>
    simp only [fetch_subreddit_stats, Option.some.injEq] at h
    subst h
    refine ⟨?_, ?_⟩
    · rintro (h1 | h1) <;> simp [pyActive, h1]
    · intro h1; simp [h1]

/-- Witness for C10 at a metadata response with no subscriber count and a
null active count. -/
theorem C10_fields_numeric_witness : sR.active = 0 ∧ sR.subscribers = 0 := by
  have hfetch : fetch_subreddit_stats "a" (some ⟨none, some none⟩) HotResult.httpError 0
      = some sR := by
    simp [fetch_subreddit_stats, stats24h, pyActive, sR]
    norm_num [pyRound]
  exact ⟨(C10_fields_numeric "a" ⟨none, some none⟩ HotResult.httpError 0 sR hfetch).1
      (Or.inr rfl),
    (C10_fields_numeric "a" ⟨none, some none⟩ HotResult.httpError 0 sR hfetch).2 rfl⟩

/-- C3: the reported `avg_score` of a community result is the total 24h
score divided by `max(posts_24h, 1)`, rounded to a nearest integer (distance
at most one half); with zero qualifying posts and zero total score it is 0. -/
theorem C3_avg_score_round (subreddit : String) (ab : AboutData) (hot : HotResult)
    (now : Int) (s : SubredditStats)
    (h : fetch_subreddit_stats subreddit (some ab) hot now = some s) :
    |(s.avg_score : ℚ) - (s.total_upvotes : ℚ) / ((max s.posts_24h 1 : Nat) : ℚ)| ≤ 1/2
    ∧ (s.posts_24h = 0 → s.total_upvotes = 0 → s.avg_score = 0) := by
  cases hot with
  | raise => simp [fetch_subreddit_stats] at h
  | ok ps =>
    simp only [fetch_subreddit_stats, Option.some.injEq] at h
    subst h
    refine ⟨?_, ?_⟩
    · exact pyRound_nearest _
    · intro h0 h1
      simp only at h0 h1 ⊢
      simp [h0, h1]
      norm_num [pyRound]
  | httpError =>
    simp only [fetch_subreddit_stats, Option.some.injEq] at h
    subst h
    refine ⟨?_, ?_⟩
    · exact pyRound_nearest _
    · intro h0 h1
      simp only at h0 h1 ⊢
      simp [h0, h1]
      norm_num [pyRound]

/-- Witness for C3: a community with two qualifying posts of scores 10 and
20 has `avg_score = 15`; the zero-posts case gives `avg_score = 0`. -/
theorem C3_avg_score_round_witness :
    |(sA.avg_score : ℚ) - (sA.total_upvotes : ℚ) / ((max sA.posts_24h 1 : Nat) : ℚ)| ≤ 1/2
    ∧ sR.avg_score = 0 := by
  have h1 : fetch_subreddit_stats "a" (some ⟨some 600, some (some 3)⟩)
      (HotResult.ok [⟨99999, 1, 10⟩, ⟨99999, 3, 20⟩]) 100000 = some sA := by
    simp [fetch_subreddit_stats, stats24h, stats24hStep, pyActive, sA]
    norm_num [pyRound]
  have h2 : fetch_subreddit_stats "a" (some ⟨none, some none⟩) HotResult.httpError 0
      = some sR := by
    simp [fetch_subreddit_stats, stats24h, pyActive, sR]
    norm_num [pyRound]
  exact ⟨(C3_avg_score_round "a" ⟨some 600, some (some 3)⟩
      (HotResult.ok [⟨99999, 1, 10⟩, ⟨99999, 3, 20⟩]) 100000 sA h1).1,
    (C3_avg_score_round "a" ⟨none, some none⟩ HotResult.httpError 0 sR h2).2 rfl rfl⟩

/-- A `max` fold either returns its seed or an element of the list. -/
theorem foldlMax_eq_seed_or_mem (l : List Int) (a : Int) :
    l.foldl max a = a ∨ l.foldl max a ∈ l := by
  induction l generalizing a with
  | nil => left; rfl
  | cons y ys ih =>
    rw [List.foldl_cons]
    rcases ih (max a y) with h | h
    · rcases max_choice a y with h2 | h2
      · left; rw [h, h2]
      · right; rw [h, h2]; exact List.mem_cons_self y ys
    · right; exact List.mem_cons_of_mem y h

/-- C1 (amended): when the repository fetch is unavailable, the snapshot
reports `stars = forks = open_issues = 0`, and the deltas are the negated
previously persisted counters — so they are 0 exactly when no previous
value was persisted, not unconditionally. -/
theorem C1_repo_unavailable (results : List (Option SubredditStats)) (prev : PrevData)
    (history : List HistoryEntry) (tsUtc tsLocal tsIso tsShort : String) :
    (collect_all_stats results none prev history tsUtc tsLocal tsIso tsShort).1.github.stars = 0
    ∧ (collect_all_stats results none prev history tsUtc tsLocal tsIso tsShort).1.github.forks = 0
    ∧ (collect_all_stats results none prev history tsUtc tsLocal tsIso
        tsShort).1.github.open_issues = 0
    ∧ (collect_all_stats results none prev history tsUtc tsLocal tsIso
        tsShort).1.github.stars_delta = -(prev.github_stars.getD 0)
    ∧ (collect_all_stats results none prev history tsUtc tsLocal tsIso
        tsShort).1.github.forks_delta = -(prev.github_forks.getD 0)
    ∧ (prev.github_stars = none →
        (collect_all_stats results none prev history tsUtc tsLocal tsIso
          tsShort).1.github.stars_delta = 0)
    ∧ (prev.github_forks = none →
        (collect_all_stats results none prev history tsUtc tsLocal tsIso
          tsShort).1.github.forks_delta = 0) := by
  obtain ⟨rsub, gs, gf⟩ := prev
  cases gs <;> cases gf <;> simp [collect_all_stats]

/-- C1 fails as stated: with a previous snapshot recording 50 stars and an
unavailable repository fetch, the new snapshot has `stars = 0` but
`stars_delta = -50`, not 0. -/
theorem C1_counterexample :
    (collect_all_stats [] none ⟨none, some 50, none⟩ [] "" "" "" "").1.github.stars = 0
    ∧ (collect_all_stats [] none ⟨none, some 50, none⟩ [] "" "" "" "").1.github.stars_delta
        = -50
    ∧ ¬((collect_all_stats [] none ⟨none, some 50, none⟩ [] "" "" "" ""
          ).1.github.stars_delta = 0) := by
  decide

/-- Witness for C1: with no previously persisted counters both deltas are
indeed 0. -/
theorem C1_repo_unavailable_witness :
    (collect_all_stats [] none ⟨none, none, none⟩ [] "" "" "" "").1.github.stars_delta = 0
    ∧ (collect_all_stats [] none ⟨none, none, none⟩ [] "" "" "" "").1.github.forks_delta
        = 0 :=
  ⟨(C1_repo_unavailable [] ⟨none, none, none⟩ [] "" "" "" "").2.2.2.2.2.1 rfl,
   (C1_repo_unavailable [] ⟨none, none, none⟩ [] "" "" "" "").2.2.2.2.2.2 rfl⟩

/-- C2 (amended): `data_points` always equals the starting history length
plus one; across two consecutive runs it increases strictly while the
starting history is below the 1000-entry cap, stays constant once the cap
is reached, and is never decreasing from a history within the cap. -/
theorem C2_data_points (r1 r2 : List (Option SubredditStats))
    (g1 g2 : Option GithubStats) (p1 p2 : PrevData) (history : List HistoryEntry)
    (a1 a2 a3 a4 b1 b2 b3 b4 : String) :
    (collect_all_stats r1 g1 p1 history a1 a2 a3 a4).1.data_points = history.length + 1
    ∧ (history.length < 1000 →
        (collect_all_stats r2 g2 p2 (collect_all_stats r1 g1 p1 history a1 a2 a3 a4).2
            b1 b2 b3 b4).1.data_points
          = (collect_all_stats r1 g1 p1 history a1 a2 a3 a4).1.data_points + 1)
    ∧ (history.length = 1000 →
        (collect_all_stats r2 g2 p2 (collect_all_stats r1 g1 p1 history a1 a2 a3 a4).2
            b1 b2 b3 b4).1.data_points
          = (collect_all_stats r1 g1 p1 history a1 a2 a3 a4).1.data_points)
    ∧ (history.length ≤ 1000 →
        (collect_all_stats r1 g1 p1 history a1 a2 a3 a4).1.data_points
          ≤ (collect_all_stats r2 g2 p2 (collect_all_stats r1 g1 p1 history a1 a2 a3 a4).2
              b1 b2 b3 b4).1.data_points) := by
  simp only [collect_data_points, collect_history_length, inf_eq_min, true_and]
  omega

/-- C2 fails as stated: starting from a history already at the 1000-entry
cap, two consecutive runs both report `data_points = 1001`, so the values
are not strictly increasing. -/
theorem C2_counterexample :
    (collect_all_stats [] none ⟨none, none, none⟩ (List.replicate 1000 e0) "" "" "" ""
        ).1.data_points = 1001
    ∧ (collect_all_stats [] none ⟨none, none, none⟩
        ((collect_all_stats [] none ⟨none, none, none⟩ (List.replicate 1000 e0)
            "" "" "" "").2) "" "" "" "").1.data_points = 1001
    ∧ ¬((collect_all_stats [] none ⟨none, none, none⟩
          ((collect_all_stats [] none ⟨none, none, none⟩ (List.replicate 1000 e0)
              "" "" "" "").2) "" "" "" "").1.data_points
        > (collect_all_stats [] none ⟨none, none, none⟩ (List.replicate 1000 e0)
            "" "" "" "").1.data_points) := by
  simp only [collect_data_points, collect_history_length, List.length_replicate,
    inf_eq_min, true_and]
  omega

/-- Witness for C2 below the cap: from an empty history the second run's
counter is the first one's plus one. -/
theorem C2_data_points_witness :
    ([] : List HistoryEntry).length < 1000
    ∧ (collect_all_stats [] none ⟨none, none, none⟩
        ((collect_all_stats [] none ⟨none, none, none⟩ [] "" "" "" "").2) "" "" "" ""
        ).1.data_points
      = (collect_all_stats [] none ⟨none, none, none⟩ [] "" "" "" "").1.data_points + 1 :=
  ⟨by decide,
   (C2_data_points [] [] none none ⟨none, none, none⟩ ⟨none, none, none⟩ []
      "" "" "" "" "" "" "" "").2.1 (by decide)⟩

/-- C4 (amended): the reported `top_score` is the `max` fold of the
qualifying posts' scores seeded with 0 — an upper bound of all qualifying
scores, equal to 0 when no post qualifies, and equal to the true maximum
single-post score whenever some qualifying post has a non-negative score
(the seed 0 masks an all-negative maximum). -/
theorem C4_top_score (posts : List Post) (now : Int) :
    (stats24h posts now).top_score = (qualifyingScores posts now).foldl max 0
    ∧ (qualifyingScores posts now = [] → (stats24h posts now).top_score = 0)
    ∧ (∀ x ∈ qualifyingScores posts now, x ≤ (stats24h posts now).top_score)
    ∧ ((∃ x ∈ qualifyingScores posts now, 0 ≤ x) →
        (qualifyingScores posts now).max? = some ((stats24h posts now).top_score)) := by
  have htop : (stats24h posts now).top_score = (qualifyingScores posts now).foldl max 0 := by
    rw [stats24h, stats24h_foldl_eq, qualifyingScores]
  refine ⟨htop, ?_, ?_, ?_⟩
  · intro h
    rw [htop, h]
    rfl
  · intro x hx
    rw [htop]
    exact le_foldlMax_of_mem _ 0 x hx
  · rintro ⟨x, hx, hx0⟩
    rw [htop]
    have hm : (qualifyingScores posts now).foldl max 0 ∈ qualifyingScores posts now := by
      rcases foldlMax_eq_seed_or_mem (qualifyingScores posts now) 0 with h | h
      · have hxle := le_foldlMax_of_mem (qualifyingScores posts now) 0 x hx
        rw [h] at hxle ⊢
        have hx00 : x = 0 := le_antisymm hxle hx0
        rwa [← hx00]
      · exact h
    exact max?_eq_some_of_bounds _ _ hm (le_foldlMax_of_mem _ 0)

/-- C4 fails as stated: a single qualifying post with score −5 yields
`top_score = 0`, while the maximum single-post score over the qualifying
posts is −5. -/
theorem C4_counterexample :
    fetch_subreddit_stats "a" (some ⟨some 1, some (some 1)⟩)
        (HotResult.ok [⟨100000, 0, -5⟩]) 100000
      = some { name := "r/a", key := "a", subscribers := 1, active := 1, posts_24h := 1
               comments := 0, avg_score := -5, total_upvotes := -5, top_score := 0 }
    ∧ (qualifyingScores [⟨100000, 0, -5⟩] 100000).max? = some (-5)
    ∧ ((-5 : Int) ≠ 0) := by
  refine ⟨?_, by decide, by decide⟩
  simp [fetch_subreddit_stats, stats24h, stats24hStep, pyActive]
  norm_num [pyRound]

/-- Witness for C4: with one qualifying post of score 7 the reported
`top_score` is the maximum qualifying score. -/
theorem C4_top_score_witness :
    (qualifyingScores [⟨100000, 0, 7⟩] 100000).max?
      = some ((stats24h [⟨100000, 0, 7⟩] 100000).top_score) :=
  (C4_top_score [⟨100000, 0, 7⟩] 100000).2.2.2 ⟨7, by decide, by decide⟩
